import Mathlib

/-! # Generation validation for desired EC2 instances (`fn.go`)

A shallow embedding of `fn.go`: the instance-type catalog held by `Function`,
the classifier `isCurrentGen`, the extractor `getInstanceType`, the credential
reader `getCreds`, the paginated loader `loadInstanceTypes` and the entry
point `RunFunction`.

Go errors are modelled by their message (`String`); `errors.Wrapf(err, m)`
is `m ++ ": " ++ err`.  Calls that leave the program (the secret lookup, the
INI reader, the AWS configuration and the listing API) are inputs of the
model, and every call the code makes is recorded in a trace of `Event`s.
The desired resources are a Go map: the order in which a `range` loop visits
them is chosen by Go at each call, so it is an input of each call too.
-/

namespace XfnCreds

/-! ## Data model -/

/-- The two fields of `types.InstanceTypeInfo` read by the program. -/
structure InstanceTypeInfo where
  InstanceType : String
  CurrentGeneration : Option Bool
deriving DecidableEq, Repr

/-- The helper `aws.ToBool`: a nil pointer reads as `false`. -/
def ToBool : Option Bool → Bool
  | some b => b
  | none => false

/-- The receiver `Function`: the catalog kept between calls. -/
structure Function where
  instanceTypes : List InstanceTypeInfo
deriving DecidableEq, Repr

/-- The group, version and kind of a resource. -/
structure GroupVersionKind where
  Group : String
  Version : String
  Kind : String
deriving DecidableEq, Repr

/-- A desired composed resource as `getInstanceType` sees it: its
group/version/kind and its string accessor by field path. -/
structure DesiredComposed where
  GroupVersionKind : GroupVersionKind
  GetString : String → Except String String

/-- The secret returned by `request.GetCredentials`: its `Data` map. -/
structure Credentials where
  Data : String → Option String

/-- The request: its tag, the result of `request.GetCredentials` by secret
name, and the result of `request.GetDesiredComposedResources`, a map from
resource name to resource, given by its entries.  The order of the entries
in the list is the order in which the caller wrote them and is not the order
in which the map is visited. -/
structure RunFunctionRequest where
  tag : String
  GetCredentials : String → Except String Credentials
  GetDesiredComposedResources : Except String (List (String × DesiredComposed))

/-- The response: tag and time-to-live set by `response.To`, and the
messages of the fatal results added by `response.Fatal`. -/
structure RunFunctionResponse where
  tag : String
  ttl : Nat
  fatal : List String
deriving DecidableEq, Repr

/-- The constant `response.DefaultTTL`, in seconds. -/
def DefaultTTL : Nat := 60

/-- The constructor `response.To`. -/
def To (req : RunFunctionRequest) (ttl : Nat) : RunFunctionResponse :=
  { tag := req.tag, ttl := ttl, fatal := [] }

/-- The call `response.Fatal`: append one fatal result. -/
def Fatal (rsp : RunFunctionResponse) (err : String) : RunFunctionResponse :=
  { rsp with fatal := rsp.fatal ++ [err] }

/-- The call `errors.Wrapf`. -/
def Wrapf (err : String) (msg : String) : String :=
  msg ++ ": " ++ err

/-- A key of a parsed INI section. -/
structure IniKey where
  name : String
  value : String
deriving DecidableEq, Repr

/-- A section of a parsed INI file. -/
structure IniSection where
  name : String
  keys : List IniKey
deriving DecidableEq, Repr

/-- A parsed INI file. -/
structure IniFile where
  sections : List IniSection
deriving DecidableEq, Repr

/-- The accessor `(*ini.File).Section`: the section of that name, a fresh
empty one when there is none. -/
def IniFile.Section (cfg : IniFile) (name : String) : IniSection :=
  match cfg.sections.find? (fun s => s.name == name) with
  | some s => s
  | none => { name := name, keys := [] }

/-- The accessor `(*ini.Section).Key`: the key of that name, a fresh one
with an empty value when there is none. -/
def IniSection.Key (s : IniSection) (name : String) : IniKey :=
  match s.keys.find? (fun k => k.name == name) with
  | some k => k
  | none => { name := name, value := "" }

/-- The accessor `(*ini.Key).String`. -/
def IniKey.String (k : IniKey) : String := k.value

/-- One page of `DescribeInstanceTypes`. -/
structure DescribeInstanceTypesOutput where
  InstanceTypes : List InstanceTypeInfo
  NextToken : Option String
deriving DecidableEq, Repr

/-- An EC2 client: the replies of the provider to the successive
`DescribeInstanceTypes` requests made through it. -/
abbrev Client := List (Except String DescribeInstanceTypesOutput)

/-- The libraries the program calls: `ini.Load` on the text of the secret,
and `config.LoadDefaultConfig` followed by `ec2.NewFromConfig`, by region,
access key id and secret access key. -/
structure External where
  iniLoad : String → Except String IniFile
  LoadDefaultConfig : String → String → String → Except String Client

/-- The order in which one `range` statement visits the entries of the map
of desired resources.  Go chooses it afresh at every loop, so it is an input
of each call; it is a rearrangement of the entries. -/
abbrev RangeOrder := List (String × DesiredComposed) → List (String × DesiredComposed)

/-- The calls the program makes, in the order it makes them. -/
inductive Event where
  | GetCredentials (name : String)
  | iniLoad (rawCreds : String)
  | LoadDefaultConfig (region accessKeyID secretAccessKey : String)
  | DescribeInstanceTypes (nextToken : Option String)
  | getInstanceType (name : String)
  | isCurrentGen (instanceType : String)
deriving DecidableEq, Repr

/-! ## The functions of `fn.go` -/

/-- The loop of `isCurrentGen` over the catalog. -/
def isCurrentGen.scan (instanceType : String) : List InstanceTypeInfo → Bool
  | [] => false
  | it :: rest =>
    if instanceType = it.InstanceType then ToBool it.CurrentGeneration
    else isCurrentGen.scan instanceType rest

/-- The method `isCurrentGen`. -/
def isCurrentGen (f : Function) (instanceType : String) : Bool :=
  if instanceType = "" then false
  else isCurrentGen.scan instanceType f.instanceTypes

/-- The function `getInstanceType`. -/
def getInstanceType (dr : DesiredComposed) : Except String String :=
  let gvk := dr.GroupVersionKind
  if gvk.Group = "ec2.aws.upbound.io" ∧ gvk.Kind = "Instance" then
    dr.GetString "spec.forProvider.instanceType"
  else
    .ok ""

/-- The method `getCreds`, with the calls it makes. -/
def getCreds (ext : External) (req : RunFunctionRequest) (keyName secretKeyName : String) :
    Except String (String × String) × List Event :=
  match req.GetCredentials "aws-creds" with
  | .error err => (.error err, [Event.GetCredentials "aws-creds"])
  | .ok creds =>
    let rawCreds := (creds.Data "credentials").getD ""
    match ext.iniLoad rawCreds with
    | .error err => (.error err, [Event.GetCredentials "aws-creds", Event.iniLoad rawCreds])
    | .ok cfg =>
      let accessKeyID := ((cfg.Section "default").Key keyName).String
      let secretAccessKey := ((cfg.Section "default").Key secretKeyName).String
      (.ok (accessKeyID, secretAccessKey),
        [Event.GetCredentials "aws-creds", Event.iniLoad rawCreds])

/-- The pagination loop of `loadInstanceTypes`: `none` when the replies run
out before the loop ends. -/
def loadInstanceTypes.loop (f : Function) (nextToken : Option String) (trace : List Event) :
    Client → Option (Except String Unit × Function × List Event)
  | [] => none
  | reply :: rest =>
    let trace := trace ++ [Event.DescribeInstanceTypes nextToken]
    match reply with
    | .error err => some (.error err, f, trace)
    | .ok resp =>
      let f : Function := { instanceTypes := f.instanceTypes ++ resp.InstanceTypes }
      match resp.NextToken with
      | none => some (.ok (), f, trace)
      | some t => loadInstanceTypes.loop f (some t) trace rest

/-- The method `loadInstanceTypes`. -/
def loadInstanceTypes (ext : External) (f : Function) (accessKeyID secretAccessKey : String) :
    Option (Except String Unit × Function × List Event) :=
  let trace := [Event.LoadDefaultConfig "us-west-2" accessKeyID secretAccessKey]
  match ext.LoadDefaultConfig "us-west-2" accessKeyID secretAccessKey with
  | .error err => some (.error err, f, trace)
  | .ok client => loadInstanceTypes.loop f none trace client

/-- The body of the loop of `RunFunction`, run over the desired resources
in the order in which they are visited. -/
def RunFunction.check (f : Function) (rsp : RunFunctionResponse) :
    List (String × DesiredComposed) → RunFunctionResponse × List Event
  | [] => (rsp, [])
  | (name, dr) :: rest =>
    match getInstanceType dr with
    | .error err =>
      (Fatal rsp (Wrapf err ("cannot get instance type from desired resource " ++ name)),
        [Event.getInstanceType name])
    | .ok it =>
      if !isCurrentGen f it then
        (Fatal rsp ("invalid: desired resource " ++ name ++
            " must use a current generation instance type - (" ++ it ++ " is not current gen)"),
          [Event.getInstanceType name, Event.isCurrentGen it])
      else
        let r := RunFunction.check f rsp rest
        (r.1, [Event.getInstanceType name, Event.isCurrentGen it] ++ r.2)

/-- The part of `RunFunction` after the catalog is in place: the map of
desired resources is visited in the order `range` gives. -/
def RunFunction.validate (range : RangeOrder) (f : Function) (req : RunFunctionRequest)
    (rsp : RunFunctionResponse) : RunFunctionResponse × List Event :=
  match req.GetDesiredComposedResources with
  | .error err =>
    (Fatal rsp (Wrapf err "cannot get desired composed resources from *v1beta1.RunFunctionRequest"),
      [])
  | .ok desired => RunFunction.check f rsp (range desired)

/-- The method `RunFunction`: the response, the receiver after the call and
the calls made; `none` when the replies of the provider run out during the
load.  The log line has no effect on the result and is left out. -/
def RunFunction (ext : External) (range : RangeOrder) (f : Function)
    (req : RunFunctionRequest) : Option (RunFunctionResponse × Function × List Event) :=
  let rsp := To req DefaultTTL
  if f.instanceTypes.length = 0 then
    match getCreds ext req "aws_access_key_id" "aws_secret_access_key" with
    | (.error err, t₁) => some (Fatal rsp (Wrapf err "cannot get credentials"), f, t₁)
    | (.ok (accessKeyID, secretAccessKey), t₁) =>
      match loadInstanceTypes ext f accessKeyID secretAccessKey with
      | none => none
      | some (.error err, f₁, t₂) =>
        some (Fatal rsp (Wrapf err "cannot load instance types"), f₁, t₁ ++ t₂)
      | some (.ok (), f₁, t₂) =>
        let r := RunFunction.validate range f₁ req rsp
        some (r.1, f₁, t₁ ++ t₂ ++ r.2)
  else
    let r := RunFunction.validate range f req rsp
    some (r.1, f, r.2)

/-! ## Reading a trace -/

/-- The calls made by one complete inspection of a desired resource: the
extraction, and the classification of what was extracted. -/
def inspection (p : String × DesiredComposed) : List Event :=
  match getInstanceType p.2 with
  | .ok it => [Event.getInstanceType p.1, Event.isCurrentGen it]
  | .error _ => [Event.getInstanceType p.1]

/-- Whether a call is a credential retrieval or a call to the provider. -/
def Event.isLoad : Event → Bool
  | Event.GetCredentials _ => true
  | Event.iniLoad _ => true
  | Event.LoadDefaultConfig _ _ _ => true
  | Event.DescribeInstanceTypes _ => true
  | Event.getInstanceType _ => false
  | Event.isCurrentGen _ => false

/-- The cursors sent in the listing calls of a trace, in order. -/
def listingCalls : List Event → List (Option String)
  | [] => []
  | Event.DescribeInstanceTypes t :: rest => t :: listingCalls rest
  | _ :: rest => listingCalls rest

/-- The fatal message `RunFunction` reports for a desired resource, `none`
when the resource passes the check. -/
def failureMessage? (f : Function) (p : String × DesiredComposed) : Option String :=
  match getInstanceType p.2 with
  | .error err => some (Wrapf err ("cannot get instance type from desired resource " ++ p.1))
  | .ok it =>
    if isCurrentGen f it then none
    else some ("invalid: desired resource " ++ p.1 ++
      " must use a current generation instance type - (" ++ it ++ " is not current gen)")

/-! ## Inputs of the examples -/

/-- The catalog of the examples: `t3.micro` flagged legacy, `m6i.large`
flagged current. -/
def exampleCatalog : Function :=
  { instanceTypes := [⟨"t3.micro", some false⟩, ⟨"m6i.large", some true⟩] }

/-- A desired EC2 instance that declares the given instance type. -/
def instanceOf (instanceType : String) : DesiredComposed :=
  { GroupVersionKind := ⟨"ec2.aws.upbound.io", "v1beta1", "Instance"⟩
    GetString := fun path =>
      if path = "spec.forProvider.instanceType" then .ok instanceType
      else .error (path ++ ": no such field") }

/-- A desired resource of another kind, an S3 bucket. -/
def bucket : DesiredComposed :=
  { GroupVersionKind := ⟨"s3.aws.upbound.io", "v1beta1", "Bucket"⟩
    GetString := fun path => .error (path ++ ": no such field") }

/-- A request that carries the given desired resources and no credentials. -/
def requestOf (desired : List (String × DesiredComposed)) : RunFunctionRequest :=
  { tag := "demo"
    GetCredentials := fun name => .error (name ++ ": credential not found")
    GetDesiredComposedResources := .ok desired }

/-- Libraries whose every call fails. -/
def noExternal : External :=
  { iniLoad := fun _ => .error "unreachable"
    LoadDefaultConfig := fun _ _ _ => .error "unreachable" }

/-- A page of `n` records, numbered from `start`, with its cursor. -/
def examplePage (start n : Nat) (cursor : Option String) : DescribeInstanceTypesOutput :=
  { InstanceTypes :=
      (List.range n).map (fun i => ⟨"type-" ++ toString (start + i), some true⟩)
    NextToken := cursor }

/-- Three pages of 100 records with cursors. -/
def examplePagesInit : List DescribeInstanceTypesOutput :=
  [examplePage 0 100 (some "cursor-1"), examplePage 100 100 (some "cursor-2"),
    examplePage 200 100 (some "cursor-3")]

/-- The final page of 40 records without cursor. -/
def examplePageLast : DescribeInstanceTypesOutput := examplePage 300 40 none

/-- A provider that serves the four example pages. -/
def pagedExternal : External :=
  { iniLoad := fun _ => .error "unreachable"
    LoadDefaultConfig := fun _ _ _ =>
      .ok ((examplePagesInit ++ [examplePageLast]).map Except.ok) }

/-- The value of `key` in the section named `default` of a parsed file, the
empty string when the file has no such section or the section no such key. -/
def defaultValue (cfg : IniFile) (key : String) : String :=
  match cfg.sections.find? (fun s => s.name == "default") with
  | none => ""
  | some s =>
    match s.keys.find? (fun k => k.name == key) with
    | none => ""
    | some k => k.value

/-! ## An INI reader for the examples

A reader of plain INI text, used as `ini.Load` in the examples: blank lines,
`#` and `;` comments at the start and at the end of a line, `[section]`
headers, and `key=value` or `key:value` lines, a repeated key keeping its
last value.  Quoted values and values continued on a next line are not
read. -/

/-- Cut a text into its lines. -/
def iniLines : List Char → List (List Char)
  | [] => [[]]
  | c :: cs =>
    if c = '\n' then [] :: iniLines cs
    else
      match iniLines cs with
      | [] => [[c]]
      | l :: ls => (c :: l) :: ls

/-- Strip the white space at both ends of a line. -/
def iniTrim (l : List Char) : List Char :=
  ((l.dropWhile Char.isWhitespace).reverse.dropWhile Char.isWhitespace).reverse

/-- Open a section: it is created when the file does not have it yet. -/
def iniAddSection (name : String) : List IniSection → List IniSection
  | [] => [⟨name, []⟩]
  | s :: rest => if s.name = name then s :: rest else s :: iniAddSection name rest

/-- Set a key among the keys of a section: a key already there takes the
new value, a new key goes to the end. -/
def iniSetKey (k : IniKey) : List IniKey → List IniKey
  | [] => [k]
  | k₀ :: rest => if k₀.name = k.name then k :: rest else k₀ :: iniSetKey k rest

/-- Set a key in the named section. -/
def iniAddKey (name : String) (k : IniKey) : List IniSection → List IniSection
  | [] => [⟨name, [k]⟩]
  | s :: rest =>
    if s.name = name then ⟨s.name, iniSetKey k s.keys⟩ :: rest
    else s :: iniAddKey name k rest

/-- Read the lines of a text into the sections read so far, `current` being
the section the next key goes to. -/
def iniRead (current : String) (sections : List IniSection) :
    List (List Char) → Except String IniFile
  | [] => .ok ⟨sections⟩
  | line :: rest =>
    match iniTrim line with
    | [] => iniRead current sections rest
    | '#' :: _ => iniRead current sections rest
    | ';' :: _ => iniRead current sections rest
    | '[' :: body =>
      match body.reverse.dropWhile (fun c => c != ']') with
      | _ :: name =>
        iniRead (String.mk (iniTrim name.reverse))
          (iniAddSection (String.mk (iniTrim name.reverse)) sections) rest
      | [] => .error ("unclosed section: " ++ String.mk (iniTrim line))
    | text =>
      match text.span (fun c => c != '=' && c != ':') with
      | (_, []) => .error ("key-value delimiter not found: " ++ String.mk text)
      | (key, _ :: value) =>
        iniRead current
          (iniAddKey current
            ⟨String.mk (iniTrim key),
              String.mk (iniTrim (value.takeWhile (fun c => c != '#' && c != ';')))⟩
            sections) rest

/-- The reader: keys before the first header go to the section `DEFAULT`. -/
def exampleIniLoad (raw : String) : Except String IniFile :=
  iniRead "DEFAULT" [⟨"DEFAULT", []⟩] (iniLines raw.data)

/-- A request whose secret `aws-creds` holds the text `raw` under the field
`credentials`. -/
def secretRequest (raw : String) (desired : List (String × DesiredComposed)) :
    RunFunctionRequest :=
  { tag := "demo"
    GetCredentials := fun name =>
      if name = "aws-creds" then
        .ok ⟨fun field => if field = "credentials" then some raw else none⟩
      else .error (name ++ ": credential not found")
    GetDesiredComposedResources := .ok desired }

/-- Libraries with the example reader and a provider whose first page
succeeds with a cursor and whose second request fails. -/
def flakyExternal : External :=
  { iniLoad := exampleIniLoad
    LoadDefaultConfig := fun _ _ _ =>
      .ok [.ok ⟨[⟨"t3.micro", some false⟩], some "cursor-1"⟩, .error "RequestLimitExceeded"] }

/-! ## The classifier -/

theorem scan_eq_false_of_forall_ne (instanceType : String) (l : List InstanceTypeInfo)
    (h : ∀ r ∈ l, r.InstanceType ≠ instanceType) :
    isCurrentGen.scan instanceType l = false := by
  induction l with
  | nil => rfl
  | cons a l ih =>
    have ha : instanceType ≠ a.InstanceType := fun e => h a (List.mem_cons_self _ _) e.symm
    simp only [isCurrentGen.scan, if_neg ha]
    exact ih (fun r hr => h r (List.mem_cons_of_mem _ hr))

theorem scan_eq_of_mem (l : List InstanceTypeInfo) (r : InstanceTypeInfo)
    (hu : (l.map InstanceTypeInfo.InstanceType).Nodup) (hr : r ∈ l) :
    isCurrentGen.scan r.InstanceType l = ToBool r.CurrentGeneration := by
  induction l with
  | nil => cases hr
  | cons a l ih =>
    rw [List.map_cons, List.nodup_cons] at hu
    rcases List.mem_cons.1 hr with rfl | hr'
    · simp [isCurrentGen.scan]
    · have hne : r.InstanceType ≠ a.InstanceType := by
        intro e
        apply hu.1
        rw [← e]
        exact List.mem_map_of_mem _ hr'
      simp only [isCurrentGen.scan, if_neg hne]
      exact ih hu.2 hr'

/-- C1: an identifier that equals no record's identifier in the catalog
(the empty identifier and the empty catalog included) is classified as not
current generation. -/
theorem isCurrentGen_fail_closed (f : Function) (instanceType : String)
    (h : ∀ r ∈ f.instanceTypes, r.InstanceType ≠ instanceType) :
    isCurrentGen f instanceType = false := by
  unfold isCurrentGen
  split
  · rfl
  · exact scan_eq_false_of_forall_ne instanceType f.instanceTypes h

/-- Instances of C1: an unknown identifier and the empty identifier in
the example catalog, and an identifier in the empty catalog. -/
theorem isCurrentGen_fail_closed_witness :
    (∀ r ∈ exampleCatalog.instanceTypes, r.InstanceType ≠ "m7i.large") ∧
    isCurrentGen exampleCatalog "m7i.large" = false ∧
    isCurrentGen exampleCatalog "" = false ∧
    isCurrentGen { instanceTypes := [] } "t3.micro" = false :=
  ⟨by decide,
    isCurrentGen_fail_closed exampleCatalog "m7i.large" (by decide),
    isCurrentGen_fail_closed exampleCatalog "" (by decide),
    isCurrentGen_fail_closed { instanceTypes := [] } "t3.micro"
      (fun r hr => absurd hr (List.not_mem_nil r))⟩

/-- C4: in a catalog with unique identifiers, a non-empty identifier that is
the identifier of a record is classified by that record's flag, an unset
flag reading as false. -/
theorem isCurrentGen_found_flag (f : Function) (instanceType : String) (r : InstanceTypeInfo)
    (hu : (f.instanceTypes.map InstanceTypeInfo.InstanceType).Nodup)
    (hne : instanceType ≠ "") (hr : r ∈ f.instanceTypes)
    (he : r.InstanceType = instanceType) :
    isCurrentGen f instanceType = r.CurrentGeneration.getD false := by
  subst he
  unfold isCurrentGen
  rw [if_neg hne, scan_eq_of_mem f.instanceTypes r hu hr]
  cases r.CurrentGeneration <;> rfl

/-- Instances of C4: the two records of the example catalog, and a record
whose flag is unset. -/
theorem isCurrentGen_found_flag_witness :
    ((exampleCatalog.instanceTypes.map InstanceTypeInfo.InstanceType).Nodup ∧
      (⟨"m6i.large", some true⟩ : InstanceTypeInfo) ∈ exampleCatalog.instanceTypes) ∧
    isCurrentGen exampleCatalog "m6i.large" = true ∧
    isCurrentGen exampleCatalog "t3.micro" = false ∧
    isCurrentGen { instanceTypes := [⟨"a1.medium", none⟩] } "a1.medium" = false :=
  ⟨⟨by decide, by decide⟩,
    isCurrentGen_found_flag exampleCatalog "m6i.large" ⟨"m6i.large", some true⟩
      (by decide) (by decide) (by decide) rfl,
    isCurrentGen_found_flag exampleCatalog "t3.micro" ⟨"t3.micro", some false⟩
      (by decide) (by decide) (by decide) rfl,
    isCurrentGen_found_flag { instanceTypes := [⟨"a1.medium", none⟩] } "a1.medium"
      ⟨"a1.medium", none⟩ (by decide) (by decide) (by decide) rfl⟩

/-! ## The check of the desired resources -/

theorem Fatal_ne (rsp : RunFunctionResponse) (msg : String) : Fatal rsp msg ≠ rsp := by
  intro h
  have hl := congrArg (fun r => r.fatal.length) h
  simp [Fatal] at hl

theorem failureMessage?_eq_none (f : Function) (p : String × DesiredComposed) :
    failureMessage? f p = none ↔
      ∃ it, getInstanceType p.2 = .ok it ∧ isCurrentGen f it = true := by
  unfold failureMessage?
  cases hx : getInstanceType p.2 with
  | error err => simp
  | ok it => cases hc : isCurrentGen f it <;> simp [hc]

theorem check_fst (f : Function) (rsp : RunFunctionResponse)
    (ds : List (String × DesiredComposed)) :
    (RunFunction.check f rsp ds).1 =
      match ds.findSome? (failureMessage? f) with
      | none => rsp
      | some msg => Fatal rsp msg := by
  induction ds with
  | nil => rfl
  | cons p ds ih =>
    obtain ⟨name, dr⟩ := p
    cases hx : getInstanceType dr with
    | error err => simp [RunFunction.check, failureMessage?, hx]
    | ok it =>
      cases hc : isCurrentGen f it with
      | false => simp [RunFunction.check, failureMessage?, hx, hc]
      | true => simpa [RunFunction.check, failureMessage?, hx, hc] using ih

theorem check_accept_iff (f : Function) (rsp : RunFunctionResponse)
    (ds : List (String × DesiredComposed)) :
    (RunFunction.check f rsp ds).1 = rsp ↔
      ∀ p ∈ ds, ∃ it, getInstanceType p.2 = .ok it ∧ isCurrentGen f it = true := by
  rw [check_fst]
  cases hm : ds.findSome? (failureMessage? f) with
  | none =>
    simp only [true_iff]
    intro p hp
    exact (failureMessage?_eq_none f p).1 (List.findSome?_eq_none_iff.1 hm p hp)
  | some msg =>
    simp only [Fatal_ne, false_iff]
    intro hall
    have hnone : ds.findSome? (failureMessage? f) = none :=
      List.findSome?_eq_none_iff.2 (fun p hp => (failureMessage?_eq_none f p).2 (hall p hp))
    rw [hnone] at hm
    cases hm

theorem check_fatal_mem (f : Function) (rsp : RunFunctionResponse)
    (ds : List (String × DesiredComposed)) :
    (RunFunction.check f rsp ds).1 = rsp ∨
      ∃ p ∈ ds, ∃ msg, failureMessage? f p = some msg ∧
        (RunFunction.check f rsp ds).1 = Fatal rsp msg := by
  rw [check_fst]
  cases hm : ds.findSome? (failureMessage? f) with
  | none => exact Or.inl rfl
  | some msg =>
    obtain ⟨p, hp, hmsg⟩ := List.exists_of_findSome?_eq_some hm
    exact Or.inr ⟨p, hp, msg, hmsg, rfl⟩

theorem check_trace_not_load (f : Function) (rsp : RunFunctionResponse)
    (ds : List (String × DesiredComposed)) :
    ∀ e ∈ (RunFunction.check f rsp ds).2, e.isLoad = false := by
  induction ds with
  | nil => intro e he; cases he
  | cons p ds ih =>
    obtain ⟨name, dr⟩ := p
    intro e he
    cases hx : getInstanceType dr with
    | error err =>
      simp [RunFunction.check, hx] at he
      subst he
      rfl
    | ok it =>
      cases hc : isCurrentGen f it with
      | false =>
        simp [RunFunction.check, hx, hc] at he
        rcases he with rfl | rfl <;> rfl
      | true =>
        simp [RunFunction.check, hx, hc] at he
        rcases he with rfl | rfl | he
        · rfl
        · rfl
        · exact ih e he

theorem check_fail_fast (f : Function) (rsp : RunFunctionResponse)
    (pre post : List (String × DesiredComposed)) (name : String) (dr : DesiredComposed)
    (it : String)
    (hpre : ∀ p ∈ pre, ∃ t, getInstanceType p.2 = .ok t ∧ isCurrentGen f t = true)
    (hit : getInstanceType dr = .ok it) (hbad : isCurrentGen f it = false) :
    RunFunction.check f rsp (pre ++ (name, dr) :: post) =
      (Fatal rsp ("invalid: desired resource " ++ name ++
          " must use a current generation instance type - (" ++ it ++ " is not current gen)"),
        (pre ++ [(name, dr)]).flatMap inspection) := by
  induction pre with
  | nil => simp [RunFunction.check, inspection, hit, hbad]
  | cons p pre ih =>
    obtain ⟨n, d⟩ := p
    obtain ⟨t, ht, hc⟩ := hpre (n, d) (List.mem_cons_self _ _)
    have ih' := ih (fun q hq => hpre q (List.mem_cons_of_mem _ hq))
    have ht' : getInstanceType d = .ok t := ht
    simp [RunFunction.check, ht', hc, ih', inspection]

theorem RunFunction_ready (ext : External) (range : RangeOrder) (f : Function)
    (req : RunFunctionRequest) (hcat : f.instanceTypes ≠ []) :
    RunFunction ext range f req =
      some ((RunFunction.validate range f req (To req DefaultTTL)).1, f,
        (RunFunction.validate range f req (To req DefaultTTL)).2) := by
  have hlen : ¬ f.instanceTypes.length = 0 := by
    intro h
    exact hcat (List.length_eq_zero.1 h)
  simp only [RunFunction, if_neg hlen]

theorem check_map (f : Function) (g : RunFunctionResponse → RunFunctionResponse)
    (hg : ∀ r msg, g (Fatal r msg) = Fatal (g r) msg) (rsp : RunFunctionResponse)
    (ds : List (String × DesiredComposed)) :
    RunFunction.check f (g rsp) ds =
      (g (RunFunction.check f rsp ds).1, (RunFunction.check f rsp ds).2) := by
  induction ds with
  | nil => rfl
  | cons p ds ih =>
    obtain ⟨name, dr⟩ := p
    cases hx : getInstanceType dr with
    | error err => simp [RunFunction.check, hx, hg]
    | ok it =>
      cases hc : isCurrentGen f it with
      | false => simp [RunFunction.check, hx, hc, hg]
      | true => simp [RunFunction.check, hx, hc, ih]

theorem validate_same_order (range range₂ : RangeOrder) (f : Function)
    (req req₂ : RunFunctionRequest)
    (h : req₂.GetDesiredComposedResources = req.GetDesiredComposedResources)
    (hsame : ∀ d, req.GetDesiredComposedResources = .ok d → range₂ d = range d) :
    RunFunction.validate range₂ f req₂ (To req₂ DefaultTTL) =
      ({ (RunFunction.validate range f req (To req DefaultTTL)).1 with tag := req₂.tag },
        (RunFunction.validate range f req (To req DefaultTTL)).2) := by
  unfold RunFunction.validate
  rw [h]
  cases hd : req.GetDesiredComposedResources with
  | error err => rfl
  | ok ds =>
    simp only [hsame ds hd]
    exact check_map f (fun r => { r with tag := req₂.tag }) (fun _ _ => rfl)
      (To req DefaultTTL) (range ds)

theorem validate_trace_not_load (range : RangeOrder) (f : Function) (req : RunFunctionRequest)
    (rsp : RunFunctionResponse) :
    ∀ e ∈ (RunFunction.validate range f req rsp).2, e.isLoad = false := by
  unfold RunFunction.validate
  cases req.GetDesiredComposedResources with
  | error err => intro e he; cases he
  | ok ds => exact check_trace_not_load f rsp (range ds)

theorem validate_accept_iff (range : RangeOrder) (f : Function) (req : RunFunctionRequest)
    (desired : List (String × DesiredComposed))
    (hreq : req.GetDesiredComposedResources = .ok desired)
    (hrange : (range desired).Perm desired) :
    (RunFunction.validate range f req (To req DefaultTTL)).1 = To req DefaultTTL ↔
      ∀ p ∈ desired, ∃ it, getInstanceType p.2 = .ok it ∧ isCurrentGen f it = true := by
  simp only [RunFunction.validate, hreq, check_accept_iff]
  constructor
  · intro h p hp
    exact h p (hrange.mem_iff.2 hp)
  · intro h p hp
    exact h p (hrange.mem_iff.1 hp)

theorem validate_fatal_mem (range : RangeOrder) (f : Function) (req : RunFunctionRequest)
    (desired : List (String × DesiredComposed))
    (hreq : req.GetDesiredComposedResources = .ok desired)
    (hrange : (range desired).Perm desired)
    (hne : (RunFunction.validate range f req (To req DefaultTTL)).1 ≠ To req DefaultTTL) :
    ∃ p ∈ desired, ∃ msg, failureMessage? f p = some msg ∧
      (RunFunction.validate range f req (To req DefaultTTL)).1 =
        Fatal (To req DefaultTTL) msg := by
  simp only [RunFunction.validate, hreq] at hne ⊢
  rcases check_fatal_mem f (To req DefaultTTL) (range desired) with h | ⟨p, hp, msg, hmsg, h⟩
  · exact absurd h hne
  · exact ⟨p, hrange.mem_iff.1 hp, msg, hmsg, h⟩

/-! ## `RunFunction` with the catalog in place -/

/-- C5: with a non-empty catalog, whatever the order in which the map of
desired resources is visited, `RunFunction` returns the accepted response
exactly when every desired resource is extracted without error and the
extracted instance type is classified current generation by `isCurrentGen`;
in every other case it returns that response with one fatal result. -/
theorem RunFunction_ready_verdict (ext : External) (range : RangeOrder) (f : Function)
    (req : RunFunctionRequest) (desired : List (String × DesiredComposed))
    (hcat : f.instanceTypes ≠ []) (hreq : req.GetDesiredComposedResources = .ok desired)
    (hrange : (range desired).Perm desired) :
    ∃ rsp trace, RunFunction ext range f req = some (rsp, f, trace) ∧
      (rsp = To req DefaultTTL ↔
        ∀ p ∈ desired, ∃ it, getInstanceType p.2 = .ok it ∧ isCurrentGen f it = true) ∧
      (rsp ≠ To req DefaultTTL → ∃ msg, rsp = Fatal (To req DefaultTTL) msg) := by
  refine ⟨_, _, RunFunction_ready ext range f req hcat, ?_, ?_⟩
  · exact validate_accept_iff range f req desired hreq hrange
  · intro hne
    obtain ⟨_, _, msg, _, h⟩ := validate_fatal_mem range f req desired hreq hrange hne
    exact ⟨msg, h⟩

/-- The examples of C5: in the example catalog a desired `m6i.large` is
accepted, a desired `t3.micro` and a desired `m7i.large` are fatal. -/
theorem RunFunction_ready_verdict_witness :
    exampleCatalog.instanceTypes ≠ [] ∧
    (∃ trace,
      RunFunction noExternal List.reverse exampleCatalog
          (requestOf [("a", instanceOf "m6i.large")]) =
        some ({ tag := "demo", ttl := 60, fatal := [] }, exampleCatalog, trace)) ∧
    (∃ msg trace,
      RunFunction noExternal List.reverse exampleCatalog
          (requestOf [("a", instanceOf "t3.micro")]) =
        some ({ tag := "demo", ttl := 60, fatal := [msg] }, exampleCatalog, trace)) ∧
    (∃ msg trace,
      RunFunction noExternal List.reverse exampleCatalog
          (requestOf [("a", instanceOf "m7i.large")]) =
        some ({ tag := "demo", ttl := 60, fatal := [msg] }, exampleCatalog, trace)) := by
  refine ⟨by decide, ?_, ?_, ?_⟩
  · obtain ⟨rsp, trace, hrun, hiff, _⟩ :=
      RunFunction_ready_verdict noExternal List.reverse exampleCatalog
        (requestOf [("a", instanceOf "m6i.large")]) [("a", instanceOf "m6i.large")]
        (by decide) rfl (List.reverse_perm _)
    have hall : ∀ p ∈ [("a", instanceOf "m6i.large")],
        ∃ it, getInstanceType p.2 = .ok it ∧ isCurrentGen exampleCatalog it = true := by
      intro p hp
      rw [List.mem_singleton] at hp
      subst hp
      exact ⟨"m6i.large", rfl, by decide⟩
    rw [hiff.2 hall] at hrun
    exact ⟨trace, hrun⟩
  · obtain ⟨rsp, trace, hrun, hiff, hfatal⟩ :=
      RunFunction_ready_verdict noExternal List.reverse exampleCatalog
        (requestOf [("a", instanceOf "t3.micro")]) [("a", instanceOf "t3.micro")]
        (by decide) rfl (List.reverse_perm _)
    have hnot : rsp ≠ To (requestOf [("a", instanceOf "t3.micro")]) DefaultTTL := by
      intro h
      obtain ⟨it, h₁, h₂⟩ := hiff.1 h ("a", instanceOf "t3.micro") (List.mem_singleton_self _)
      have h₃ : (Except.ok "t3.micro" : Except String String) = Except.ok it := h₁
      injection h₃ with h₄
      subst h₄
      revert h₂
      decide
    obtain ⟨msg, hmsg⟩ := hfatal hnot
    rw [hmsg] at hrun
    exact ⟨msg, trace, hrun⟩
  · obtain ⟨rsp, trace, hrun, hiff, hfatal⟩ :=
      RunFunction_ready_verdict noExternal List.reverse exampleCatalog
        (requestOf [("a", instanceOf "m7i.large")]) [("a", instanceOf "m7i.large")]
        (by decide) rfl (List.reverse_perm _)
    have hnot : rsp ≠ To (requestOf [("a", instanceOf "m7i.large")]) DefaultTTL := by
      intro h
      obtain ⟨it, h₁, h₂⟩ := hiff.1 h ("a", instanceOf "m7i.large") (List.mem_singleton_self _)
      have h₃ : (Except.ok "m7i.large" : Except String String) = Except.ok it := h₁
      injection h₃ with h₄
      subst h₄
      revert h₂
      decide
    obtain ⟨msg, hmsg⟩ := hfatal hnot
    rw [hmsg] at hrun
    exact ⟨msg, trace, hrun⟩

/-- C6, as the code has it: with a non-empty catalog, when the resources
visited before `name` all pass and `name` is extracted without error and
classified not current generation, `RunFunction` returns the response with
the one fatal result that names `name` and its instance type, and the calls
it made are the inspections of the resources visited up to and including
`name`: no resource due later in the visit is extracted or classified.  The
order is the one in which the `range` loop visits the map. -/
theorem RunFunction_fail_fast (ext : External) (range : RangeOrder) (f : Function)
    (req : RunFunctionRequest) (desired pre post : List (String × DesiredComposed))
    (name : String) (dr : DesiredComposed) (it : String)
    (hcat : f.instanceTypes ≠ [])
    (hreq : req.GetDesiredComposedResources = .ok desired)
    (hvisit : range desired = pre ++ (name, dr) :: post)
    (hpre : ∀ p ∈ pre, ∃ t, getInstanceType p.2 = .ok t ∧ isCurrentGen f t = true)
    (hit : getInstanceType dr = .ok it) (hbad : isCurrentGen f it = false) :
    RunFunction ext range f req =
      some ({ tag := req.tag, ttl := DefaultTTL,
              fatal := ["invalid: desired resource " ++ name ++
                " must use a current generation instance type - (" ++ it ++
                " is not current gen)"] },
        f, (pre ++ [(name, dr)]).flatMap inspection) := by
  rw [RunFunction_ready ext range f req hcat]
  simp only [RunFunction.validate, hreq, hvisit]
  rw [check_fail_fast f _ pre post name dr it hpre hit hbad]
  rfl

/-- The example of C6, and a visit of three resources that stops at the
second one it meets. -/
theorem RunFunction_fail_fast_witness :
    RunFunction noExternal List.reverse exampleCatalog
        (requestOf [("a", instanceOf "t3.micro")]) =
      some ({ tag := "demo", ttl := 60,
              fatal := ["invalid: desired resource a must use a current generation instance type - (t3.micro is not current gen)"] },
        exampleCatalog, [Event.getInstanceType "a", Event.isCurrentGen "t3.micro"]) ∧
    RunFunction noExternal List.reverse exampleCatalog
        (requestOf [("c", instanceOf "m7i.large"), ("b", instanceOf "t3.micro"),
          ("a", instanceOf "m6i.large")]) =
      some ({ tag := "demo", ttl := 60,
              fatal := ["invalid: desired resource b must use a current generation instance type - (t3.micro is not current gen)"] },
        exampleCatalog,
        [Event.getInstanceType "a", Event.isCurrentGen "m6i.large",
          Event.getInstanceType "b", Event.isCurrentGen "t3.micro"]) := by
  constructor
  · exact (RunFunction_fail_fast noExternal List.reverse exampleCatalog
      (requestOf [("a", instanceOf "t3.micro")]) [("a", instanceOf "t3.micro")]
      [] [] "a" (instanceOf "t3.micro") "t3.micro" (by decide) rfl rfl
      (fun p hp => absurd hp (List.not_mem_nil p)) rfl (by decide)).trans (by decide)
  · refine (RunFunction_fail_fast noExternal List.reverse exampleCatalog
      (requestOf [("c", instanceOf "m7i.large"), ("b", instanceOf "t3.micro"),
        ("a", instanceOf "m6i.large")])
      [("c", instanceOf "m7i.large"), ("b", instanceOf "t3.micro"),
        ("a", instanceOf "m6i.large")]
      [("a", instanceOf "m6i.large")] [("c", instanceOf "m7i.large")] "b"
      (instanceOf "t3.micro") "t3.micro" (by decide) rfl rfl ?_ rfl (by decide)).trans
      (by decide)
    intro p hp
    rw [List.mem_singleton] at hp
    subst hp
    exact ⟨"m6i.large", rfl, by decide⟩

/-- C6 as stated fails: the caller lists `a` (current), `b` (legacy), `c`
(unknown), so `b` is the first resource of the caller's order that is not
current generation; a run whose `range` loop visits the map as `c`, `b`, `a`
returns the fatal result that names `c` and has extracted and classified
`c`, the resource listed after `b`. -/
theorem RunFunction_fail_fast_caller_order_counterexample :
    exampleCatalog.instanceTypes ≠ [] ∧
    (getInstanceType (instanceOf "m6i.large") = .ok "m6i.large" ∧
      isCurrentGen exampleCatalog "m6i.large" = true) ∧
    (getInstanceType (instanceOf "t3.micro") = .ok "t3.micro" ∧
      isCurrentGen exampleCatalog "t3.micro" = false) ∧
    (List.reverse [("a", instanceOf "m6i.large"), ("b", instanceOf "t3.micro"),
        ("c", instanceOf "m7i.large")]).Perm
      [("a", instanceOf "m6i.large"), ("b", instanceOf "t3.micro"),
        ("c", instanceOf "m7i.large")] ∧
    RunFunction noExternal List.reverse exampleCatalog
        (requestOf [("a", instanceOf "m6i.large"), ("b", instanceOf "t3.micro"),
          ("c", instanceOf "m7i.large")]) =
      some ({ tag := "demo", ttl := 60,
              fatal := ["invalid: desired resource c must use a current generation instance type - (m7i.large is not current gen)"] },
        exampleCatalog, [Event.getInstanceType "c", Event.isCurrentGen "m7i.large"]) ∧
    RunFunction noExternal List.reverse exampleCatalog
        (requestOf [("a", instanceOf "m6i.large"), ("b", instanceOf "t3.micro"),
          ("c", instanceOf "m7i.large")]) ≠
      some ({ tag := "demo", ttl := 60,
              fatal := ["invalid: desired resource b must use a current generation instance type - (t3.micro is not current gen)"] },
        exampleCatalog,
        [Event.getInstanceType "a", Event.isCurrentGen "m6i.large",
          Event.getInstanceType "b", Event.isCurrentGen "t3.micro"]) :=
  ⟨by decide, ⟨rfl, by decide⟩, ⟨rfl, by decide⟩, List.reverse_perm _, by decide, by decide⟩

/-- C7, as the code has it: a call of `RunFunction` on a non-empty catalog
returns, leaves the catalog as it was and makes no credential, configuration
or listing call.  A further call with the same desired resources is accepted
exactly when the first one is, whatever the orders of the two visits; when
the two calls visit the resources in the same order, the further call
returns the same results (under the tag of its own request) after the same
calls. -/
theorem RunFunction_populate_once (ext : External) (range : RangeOrder) (f : Function)
    (req : RunFunctionRequest) (hcat : f.instanceTypes ≠ []) :
    ∃ rsp trace, RunFunction ext range f req = some (rsp, f, trace) ∧
      (∀ e ∈ trace, e.isLoad = false) ∧ listingCalls trace = [] ∧
      ∀ (ext₂ : External) (range₂ : RangeOrder) (req₂ : RunFunctionRequest),
        req₂.GetDesiredComposedResources = req.GetDesiredComposedResources →
        ∃ rsp₂ trace₂, RunFunction ext₂ range₂ f req₂ = some (rsp₂, f, trace₂) ∧
          (∀ e ∈ trace₂, e.isLoad = false) ∧
          ((∀ d, req.GetDesiredComposedResources = .ok d →
              (range d).Perm d ∧ (range₂ d).Perm d) →
            (rsp₂ = To req₂ DefaultTTL ↔ rsp = To req DefaultTTL)) ∧
          ((∀ d, req.GetDesiredComposedResources = .ok d → range₂ d = range d) →
            rsp₂ = { rsp with tag := req₂.tag } ∧ trace₂ = trace) := by
  have hclean := validate_trace_not_load range f req (To req DefaultTTL)
  refine ⟨_, _, RunFunction_ready ext range f req hcat, hclean, ?_, ?_⟩
  · generalize (RunFunction.validate range f req (To req DefaultTTL)).2 = trace at hclean
    induction trace with
    | nil => rfl
    | cons e trace ih =>
      have he := hclean e (List.mem_cons_self _ _)
      have ih' := ih (fun x hx => hclean x (List.mem_cons_of_mem _ hx))
      cases e <;> simp_all [listingCalls, Event.isLoad]
  · intro ext₂ range₂ req₂ h
    refine ⟨_, _, RunFunction_ready ext₂ range₂ f req₂ hcat,
      validate_trace_not_load range₂ f req₂ (To req₂ DefaultTTL), ?_, ?_⟩
    · intro hperm
      cases hd : req.GetDesiredComposedResources with
      | error err =>
        have hd₂ : req₂.GetDesiredComposedResources = .error err := h.trans hd
        simp only [RunFunction.validate, hd, hd₂, Fatal_ne]
      | ok d =>
        have hd₂ : req₂.GetDesiredComposedResources = .ok d := h.trans hd
        rw [validate_accept_iff range₂ f req₂ d hd₂ (hperm d hd).2,
          validate_accept_iff range f req d hd (hperm d hd).1]
    · intro hsame
      rw [validate_same_order range range₂ f req req₂ h hsame]
      exact ⟨rfl, rfl⟩

/-- An instance of C7: calls on the example catalog with one desired
resource. -/
theorem RunFunction_populate_once_witness :
    exampleCatalog.instanceTypes ≠ [] ∧
    ∃ rsp trace,
      RunFunction noExternal List.reverse exampleCatalog
          (requestOf [("a", instanceOf "t3.micro")]) =
        some (rsp, exampleCatalog, trace) ∧
      (∀ e ∈ trace, e.isLoad = false) ∧ listingCalls trace = [] ∧
      ∀ (ext₂ : External) (range₂ : RangeOrder) (req₂ : RunFunctionRequest),
        req₂.GetDesiredComposedResources =
          (requestOf [("a", instanceOf "t3.micro")]).GetDesiredComposedResources →
        ∃ rsp₂ trace₂, RunFunction ext₂ range₂ exampleCatalog req₂ =
            some (rsp₂, exampleCatalog, trace₂) ∧
          (∀ e ∈ trace₂, e.isLoad = false) ∧
          ((∀ d, (requestOf [("a", instanceOf "t3.micro")]).GetDesiredComposedResources =
                .ok d → (List.reverse d).Perm d ∧ (range₂ d).Perm d) →
            (rsp₂ = To req₂ DefaultTTL ↔
              rsp = To (requestOf [("a", instanceOf "t3.micro")]) DefaultTTL)) ∧
          ((∀ d, (requestOf [("a", instanceOf "t3.micro")]).GetDesiredComposedResources =
                .ok d → range₂ d = List.reverse d) →
            rsp₂ = { rsp with tag := req₂.tag } ∧ trace₂ = trace) :=
  ⟨by decide,
    RunFunction_populate_once noExternal List.reverse exampleCatalog
      (requestOf [("a", instanceOf "t3.micro")]) (by decide)⟩

/-- C7 as stated fails: two calls on the example catalog with the same
desired resources `a` (legacy) and `b` (unknown) both leave the catalog as
it was, and return different outcomes when the first visits `a` first and
the second visits `b` first. -/
theorem RunFunction_repeat_call_counterexample :
    exampleCatalog.instanceTypes ≠ [] ∧
    RunFunction noExternal (fun m => m) exampleCatalog
        (requestOf [("a", instanceOf "t3.micro"), ("b", instanceOf "m7i.large")]) =
      some ({ tag := "demo", ttl := 60,
              fatal := ["invalid: desired resource a must use a current generation instance type - (t3.micro is not current gen)"] },
        exampleCatalog, [Event.getInstanceType "a", Event.isCurrentGen "t3.micro"]) ∧
    RunFunction noExternal List.reverse exampleCatalog
        (requestOf [("a", instanceOf "t3.micro"), ("b", instanceOf "m7i.large")]) =
      some ({ tag := "demo", ttl := 60,
              fatal := ["invalid: desired resource b must use a current generation instance type - (m7i.large is not current gen)"] },
        exampleCatalog, [Event.getInstanceType "b", Event.isCurrentGen "m7i.large"]) ∧
    RunFunction noExternal (fun m => m) exampleCatalog
        (requestOf [("a", instanceOf "t3.micro"), ("b", instanceOf "m7i.large")]) ≠
      RunFunction noExternal List.reverse exampleCatalog
        (requestOf [("a", instanceOf "t3.micro"), ("b", instanceOf "m7i.large")]) :=
  ⟨by decide, by decide, by decide, by decide⟩

/-- C10: with a non-empty catalog, two visits of the same desired resources
in two orders are both accepted or both fatal; a fatal result carries the
message of one resource of the collection that fails the check, which
resource being what the order decides. -/
theorem RunFunction_order_independent (ext : External) (range₁ range₂ : RangeOrder)
    (f : Function) (req₁ req₂ : RunFunctionRequest) (d₁ d₂ : List (String × DesiredComposed))
    (hcat : f.instanceTypes ≠ [])
    (h₁ : req₁.GetDesiredComposedResources = .ok d₁)
    (h₂ : req₂.GetDesiredComposedResources = .ok d₂)
    (hperm : d₁.Perm d₂)
    (hr₁ : (range₁ d₁).Perm d₁) (hr₂ : (range₂ d₂).Perm d₂) :
    ∃ rsp₁ t₁ rsp₂ t₂,
      RunFunction ext range₁ f req₁ = some (rsp₁, f, t₁) ∧
      RunFunction ext range₂ f req₂ = some (rsp₂, f, t₂) ∧
      (rsp₁ = To req₁ DefaultTTL ↔ rsp₂ = To req₂ DefaultTTL) ∧
      (rsp₁ ≠ To req₁ DefaultTTL → ∃ p ∈ d₁, ∃ msg,
        failureMessage? f p = some msg ∧ rsp₁ = Fatal (To req₁ DefaultTTL) msg) ∧
      (rsp₂ ≠ To req₂ DefaultTTL → ∃ p ∈ d₁, ∃ msg,
        failureMessage? f p = some msg ∧ rsp₂ = Fatal (To req₂ DefaultTTL) msg) := by
  refine ⟨_, _, _, _, RunFunction_ready ext range₁ f req₁ hcat,
    RunFunction_ready ext range₂ f req₂ hcat, ?_, ?_, ?_⟩
  · rw [validate_accept_iff range₁ f req₁ d₁ h₁ hr₁, validate_accept_iff range₂ f req₂ d₂ h₂ hr₂]
    constructor
    · intro h p hp
      exact h p (hperm.mem_iff.2 hp)
    · intro h p hp
      exact h p (hperm.mem_iff.1 hp)
  · intro hne
    exact validate_fatal_mem range₁ f req₁ d₁ h₁ hr₁ hne
  · intro hne
    obtain ⟨p, hp, msg, hmsg, h⟩ := validate_fatal_mem range₂ f req₂ d₂ h₂ hr₂ hne
    exact ⟨p, hperm.mem_iff.2 hp, msg, hmsg, h⟩

/-- An instance of C10: a legacy and an unknown instance type visited in the
two orders; both runs are fatal and each names the resource it met first. -/
theorem RunFunction_order_independent_witness :
    (exampleCatalog.instanceTypes ≠ [] ∧
      (List.reverse [("a", instanceOf "t3.micro"), ("b", instanceOf "m7i.large")]).Perm
        [("a", instanceOf "t3.micro"), ("b", instanceOf "m7i.large")]) ∧
    (∃ rsp₁ t₁ rsp₂ t₂,
      RunFunction noExternal (fun m => m) exampleCatalog
        (requestOf [("a", instanceOf "t3.micro"), ("b", instanceOf "m7i.large")]) =
          some (rsp₁, exampleCatalog, t₁) ∧
      RunFunction noExternal List.reverse exampleCatalog
        (requestOf [("a", instanceOf "t3.micro"), ("b", instanceOf "m7i.large")]) =
          some (rsp₂, exampleCatalog, t₂) ∧
      (rsp₁ = To (requestOf [("a", instanceOf "t3.micro"), ("b", instanceOf "m7i.large")])
          DefaultTTL ↔
        rsp₂ = To (requestOf [("a", instanceOf "t3.micro"), ("b", instanceOf "m7i.large")])
          DefaultTTL) ∧
      (rsp₁ ≠ To (requestOf [("a", instanceOf "t3.micro"), ("b", instanceOf "m7i.large")])
          DefaultTTL →
        ∃ p ∈ [("a", instanceOf "t3.micro"), ("b", instanceOf "m7i.large")], ∃ msg,
          failureMessage? exampleCatalog p = some msg ∧
          rsp₁ = Fatal (To (requestOf [("a", instanceOf "t3.micro"),
            ("b", instanceOf "m7i.large")]) DefaultTTL) msg) ∧
      (rsp₂ ≠ To (requestOf [("a", instanceOf "t3.micro"), ("b", instanceOf "m7i.large")])
          DefaultTTL →
        ∃ p ∈ [("a", instanceOf "t3.micro"), ("b", instanceOf "m7i.large")], ∃ msg,
          failureMessage? exampleCatalog p = some msg ∧
          rsp₂ = Fatal (To (requestOf [("a", instanceOf "t3.micro"),
            ("b", instanceOf "m7i.large")]) DefaultTTL) msg)) ∧
    (RunFunction noExternal (fun m => m) exampleCatalog
        (requestOf [("a", instanceOf "t3.micro"), ("b", instanceOf "m7i.large")])).map
          (fun r => r.1.fatal) =
      some ["invalid: desired resource a must use a current generation instance type - (t3.micro is not current gen)"] ∧
    (RunFunction noExternal List.reverse exampleCatalog
        (requestOf [("a", instanceOf "t3.micro"), ("b", instanceOf "m7i.large")])).map
          (fun r => r.1.fatal) =
      some ["invalid: desired resource b must use a current generation instance type - (m7i.large is not current gen)"] :=
  ⟨⟨by decide, List.reverse_perm _⟩,
    RunFunction_order_independent noExternal (fun m => m) List.reverse exampleCatalog _ _ _ _
      (by decide) rfl rfl (List.Perm.refl _) (List.Perm.refl _) (List.reverse_perm _),
    by decide, by decide⟩

/-- C2: `getInstanceType` returns the empty string and no error for a
desired S3 bucket, `isCurrentGen` classifies the empty string as not current
generation, and `RunFunction` on the example catalog returns a fatal result
for a request whose only desired resource is that bucket. -/
theorem RunFunction_bucket_fatal :
    getInstanceType bucket = .ok "" ∧
    isCurrentGen exampleCatalog "" = false ∧
    RunFunction noExternal (fun m => m) exampleCatalog (requestOf [("b", bucket)]) =
      some ({ tag := "demo", ttl := 60,
              fatal := ["invalid: desired resource b must use a current generation instance type - ( is not current gen)"] },
        exampleCatalog, [Event.getInstanceType "b", Event.isCurrentGen ""]) :=
  ⟨rfl, by decide, by decide⟩

/-! ## The loader -/

theorem listingCalls_append (t₁ t₂ : List Event) :
    listingCalls (t₁ ++ t₂) = listingCalls t₁ ++ listingCalls t₂ := by
  induction t₁ with
  | nil => rfl
  | cons e t₁ ih => cases e <;> simp [listingCalls, ih]

theorem listingCalls_map (l : List (Option String)) :
    listingCalls (l.map Event.DescribeInstanceTypes) = l := by
  induction l with
  | nil => rfl
  | cons a l ih => simp [listingCalls, ih]

theorem loop_pages (init : List DescribeInstanceTypesOutput) (last : DescribeInstanceTypesOutput)
    (rest : Client) (hinit : ∀ p ∈ init, p.NextToken ≠ none) (hlast : last.NextToken = none)
    (f : Function) (nextToken : Option String) (trace : List Event) :
    loadInstanceTypes.loop f nextToken trace ((init ++ [last]).map Except.ok ++ rest) =
      some (.ok (),
        { instanceTypes :=
            f.instanceTypes ++ (init ++ [last]).flatMap (fun p => p.InstanceTypes) },
        trace ++ (nextToken :: init.map (fun p => p.NextToken)).map
          Event.DescribeInstanceTypes) := by
  induction init generalizing f nextToken trace with
  | nil => simp [loadInstanceTypes.loop, hlast]
  | cons p init ih =>
    have hp := hinit p (List.mem_cons_self _ _)
    obtain ⟨t, ht⟩ := Option.ne_none_iff_exists'.1 hp
    have ih' := ih (fun q hq => hinit q (List.mem_cons_of_mem _ hq))
    have hstep :
        loadInstanceTypes.loop f nextToken trace
            ((p :: (init ++ [last])).map Except.ok ++ rest) =
          loadInstanceTypes.loop { instanceTypes := f.instanceTypes ++ p.InstanceTypes } (some t)
            (trace ++ [Event.DescribeInstanceTypes nextToken])
            ((init ++ [last]).map Except.ok ++ rest) := by
      simp [loadInstanceTypes.loop, ht]
    rw [List.cons_append, hstep, ih']
    simp [ht]

/-- C8: when the provider serves pages of which all but the last carry a
cursor and every request succeeds, `loadInstanceTypes` on an empty catalog
returns without error, leaves the catalog equal to the records of the pages
in page order, and makes one listing call per page, the first without
cursor and each later one with the cursor of the page before. -/
theorem loadInstanceTypes_pagination (ext : External) (accessKeyID secretAccessKey : String)
    (init : List DescribeInstanceTypesOutput) (last : DescribeInstanceTypesOutput)
    (rest : Client)
    (hcfg : ext.LoadDefaultConfig "us-west-2" accessKeyID secretAccessKey =
      .ok ((init ++ [last]).map Except.ok ++ rest))
    (hinit : ∀ p ∈ init, p.NextToken ≠ none) (hlast : last.NextToken = none) :
    ∃ trace,
      loadInstanceTypes ext { instanceTypes := [] } accessKeyID secretAccessKey =
        some (.ok (),
          { instanceTypes := (init ++ [last]).flatMap (fun p => p.InstanceTypes) }, trace) ∧
      listingCalls trace = none :: init.map (fun p => p.NextToken) ∧
      (listingCalls trace).length = (init ++ [last]).length := by
  refine ⟨[Event.LoadDefaultConfig "us-west-2" accessKeyID secretAccessKey] ++
    (none :: init.map (fun p => p.NextToken)).map Event.DescribeInstanceTypes, ?_, ?_, ?_⟩
  · simp only [loadInstanceTypes, hcfg]
    rw [loop_pages init last rest hinit hlast]
    rfl
  · rw [listingCalls_append, listingCalls_map]
    rfl
  · rw [listingCalls_append, listingCalls_map]
    simp [listingCalls]

/-- The example of C8: three pages of 100 records with cursors and a last
page of 40 records give a catalog of 340 records after 4 listing calls. -/
theorem loadInstanceTypes_pagination_witness :
    ∃ f trace,
      loadInstanceTypes pagedExternal { instanceTypes := [] } "AKIA..." "xyz" =
        some (.ok (), f, trace) ∧
      f.instanceTypes.length = 340 ∧
      listingCalls trace = [none, some "cursor-1", some "cursor-2", some "cursor-3"] ∧
      (listingCalls trace).length = 4 := by
  obtain ⟨trace, hrun, hcalls, hlen⟩ :=
    loadInstanceTypes_pagination pagedExternal "AKIA..." "xyz" examplePagesInit examplePageLast []
      (by simp [pagedExternal])
      (by simp [examplePagesInit, examplePage])
      rfl
  refine ⟨_, trace, hrun, ?_, ?_, ?_⟩
  · simp [examplePagesInit, examplePageLast, examplePage]
  · rw [hcalls]
    rfl
  · rw [hlen]
    rfl

/-! ## The credentials -/

theorem Section_Key_String (cfg : IniFile) (key : String) :
    ((cfg.Section "default").Key key).String = defaultValue cfg key := by
  unfold IniFile.Section defaultValue IniKey.String
  cases cfg.sections.find? (fun s => s.name == "default") with
  | none => rfl
  | some s =>
    simp only [IniSection.Key]
    cases s.keys.find? (fun k => k.name == key) <;> rfl

/-- C9: when the secret is retrieved and its text is read by `ini.Load`
without error, `getCreds` returns no error and returns, for each of the two
field names, the value of that key in the section `default`, the empty
string when that section or that key is absent. -/
theorem getCreds_permissive (ext : External) (req : RunFunctionRequest)
    (keyName secretKeyName : String) (creds : Credentials) (cfg : IniFile)
    (hcreds : req.GetCredentials "aws-creds" = .ok creds)
    (hini : ext.iniLoad ((creds.Data "credentials").getD "") = .ok cfg) :
    (getCreds ext req keyName secretKeyName).1 =
      .ok (defaultValue cfg keyName, defaultValue cfg secretKeyName) := by
  simp only [getCreds, hcreds, hini, Section_Key_String]

/-- The examples of C9: the text with a `default` section gives the two
values, a text without that section gives two empty strings. -/
theorem getCreds_permissive_witness :
    (getCreds flakyExternal
        (secretRequest "[default]\naws_access_key_id=AKIA...\naws_secret_access_key=xyz\n" [])
        "aws_access_key_id" "aws_secret_access_key").1 = .ok ("AKIA...", "xyz") ∧
    (getCreds flakyExternal
        (secretRequest "[profile]\naws_access_key_id=AKIA...\naws_secret_access_key=xyz\n" [])
        "aws_access_key_id" "aws_secret_access_key").1 = .ok ("", "") :=
  ⟨(getCreds_permissive flakyExternal _ "aws_access_key_id" "aws_secret_access_key"
      ⟨fun field =>
        if field = "credentials" then
          some "[default]\naws_access_key_id=AKIA...\naws_secret_access_key=xyz\n"
        else none⟩
      ⟨[⟨"DEFAULT", []⟩,
        ⟨"default", [⟨"aws_access_key_id", "AKIA..."⟩, ⟨"aws_secret_access_key", "xyz"⟩]⟩]⟩
      rfl rfl).trans rfl,
    (getCreds_permissive flakyExternal _ "aws_access_key_id" "aws_secret_access_key"
      ⟨fun field =>
        if field = "credentials" then
          some "[profile]\naws_access_key_id=AKIA...\naws_secret_access_key=xyz\n"
        else none⟩
      ⟨[⟨"DEFAULT", []⟩,
        ⟨"profile", [⟨"aws_access_key_id", "AKIA..."⟩, ⟨"aws_secret_access_key", "xyz"⟩]⟩]⟩
      rfl rfl).trans rfl⟩

/-! ## A load that fails after its first page -/

/-- C3: on an empty catalog, with a provider whose first page succeeds with
a cursor and whose second request fails, `RunFunction` returns a fatal
result and leaves the records of the first page in the catalog; the next
call makes no credential or listing call and classifies against that
partial catalog. -/
theorem RunFunction_partial_load :
    RunFunction flakyExternal (fun m => m) { instanceTypes := [] }
        (secretRequest "[default]\naws_access_key_id=AKIA...\naws_secret_access_key=xyz\n"
          [("a", instanceOf "m6i.large")]) =
      some ({ tag := "demo", ttl := 60,
              fatal := ["cannot load instance types: RequestLimitExceeded"] },
        { instanceTypes := [⟨"t3.micro", some false⟩] },
        [Event.GetCredentials "aws-creds",
          Event.iniLoad "[default]\naws_access_key_id=AKIA...\naws_secret_access_key=xyz\n",
          Event.LoadDefaultConfig "us-west-2" "AKIA..." "xyz",
          Event.DescribeInstanceTypes none,
          Event.DescribeInstanceTypes (some "cursor-1")]) ∧
    RunFunction flakyExternal (fun m => m) { instanceTypes := [⟨"t3.micro", some false⟩] }
        (secretRequest "[default]\naws_access_key_id=AKIA...\naws_secret_access_key=xyz\n"
          [("a", instanceOf "m6i.large")]) =
      some ({ tag := "demo", ttl := 60,
              fatal := ["invalid: desired resource a must use a current generation instance type - (m6i.large is not current gen)"] },
        { instanceTypes := [⟨"t3.micro", some false⟩] },
        [Event.getInstanceType "a", Event.isCurrentGen "m6i.large"]) :=
  ⟨by decide, by decide⟩

end XfnCreds
